import Mathlib

/-!
Verification development for the Lick remote-observing VNC launcher
(`lick_vnc_launcher.py`).  The definitions below are a shallow embedding of
the tunnel/session lifecycle manager: session-discovery parsing
(`get_vnc_sessions`), local-port allocation and tunnel opening
(`open_ssh_tunnel`), tunnel closing (`close_ssh_thread`,
`close_ssh_threads`), viewer launching (`launch_vncviewer` address
formatting, `start_vnc_session`), and teardown (`exit_app`,
`kill_vnc_processes`).  OS-level effects (spawning processes, sleeping,
killing) are recorded as an explicit event trace; the outcome of external
probes (is a local port in use, does the ssh process die at once, does the
forwarded port come up) is supplied by an environment record.
-/

set_option maxRecDepth 4000

namespace LickVnc

/-- Python `str.strip()` on a character list: drop whitespace from both ends. -/
def trimChars (cs : List Char) : List Char :=
  ((cs.dropWhile Char.isWhitespace).reverse.dropWhile Char.isWhitespace).reverse

/-- Python `str.strip()`. -/
def pyStrip (s : String) : String :=
  String.mk (trimChars s.data)

/-- Helper for `pySplit`: accumulates the current field (reversed). -/
def splitOnCharAux (sep : Char) : List Char → List Char → List String
  | [], cur => [String.mk cur.reverse]
  | c :: rest, cur =>
    if c = sep then String.mk cur.reverse :: splitOnCharAux sep rest []
    else splitOnCharAux sep rest (c :: cur)

/-- Python `s.split(sep)` for a one-character separator: `"".split(sep)`
is `[""]`, adjacent separators give empty fields. -/
def pySplit (s : String) (sep : Char) : List String :=
  splitOnCharAux sep s.data []

/-- A discovered VNC session, as built by `get_vnc_sessions`:
`VNCSession(name=ln.strip(), display=fields[0].strip(),
desktop=fields[1].strip(), user=account)`. -/
structure VNCSession where
  name : String
  display : String
  desktop : String
  user : String
  deriving DecidableEq, Repr

/-- The one kind of exception the parsing block can raise: Python
`IndexError` (`ln[0]` on an empty line, or `fields[1]` when a line has
no `-`). -/
inductive PyExn where
  | indexError
  deriving DecidableEq, Repr

/-- First `-`-separated field of a line, stripped (the `display` value). -/
def firstField (ln : String) : String :=
  pyStrip ((pySplit ln '-').headD "")

/-- What one iteration of the `get_vnc_sessions` line loop does. -/
inductive LineStep where
  | raiseIndex
  | skip
  | stop
  | push (s : VNCSession)
  deriving DecidableEq, Repr

/-- One iteration of the line loop (lines 1150-1161): `ln[0]` raises on
an empty line; `#` lines are skipped; a first field `Usage` breaks out of
the loop; `fields[1]` raises when the line has no `-`; otherwise a
session is appended. -/
def lineStep (account ln : String) : LineStep :=
  match ln.data with
  | [] => LineStep.raiseIndex
  | c :: _ =>
    if c = '#' then LineStep.skip
    else if firstField ln = "Usage" then LineStep.stop
    else
      match (pySplit ln '-')[1]? with
      | none => LineStep.raiseIndex
      | some f1 => LineStep.push ⟨pyStrip ln, firstField ln, pyStrip f1, account⟩

/-- The per-line loop of `get_vnc_sessions` (src/lick_vnc_launcher.py
lines 1149-1161), folded over the lines with the accumulated session
list. -/
def parseLines (account : String) : List String → List VNCSession →
    Except PyExn (List VNCSession)
  | [], acc => Except.ok acc
  | ln :: rest, acc =>
    match lineStep account ln with
    | LineStep.raiseIndex => Except.error PyExn.indexError
    | LineStep.skip => parseLines account rest acc
    | LineStep.stop => Except.ok acc
    | LineStep.push s => parseLines account rest (acc ++ [s])

/-- The parsing part of `LickVncLauncher.get_vnc_sessions` (lines
1137-1166) applied to the remote command output `data`: when `data` is
falsy (empty) the loop body is skipped and the empty session list is
returned; otherwise the lines of `data` are parsed. -/
def get_vnc_sessions_parse (data account : String) :
    Except PyExn (List VNCSession) :=
  if data = "" then Except.ok []
  else parseLines account (pySplit data '\n') []

/-- True when a line makes the parse loop `break`: nonempty, not a
comment, and its first field is the literal `Usage`. -/
def usageStop (ln : String) : Bool :=
  match ln.data with
  | [] => false
  | c :: _ => if c = '#' then false else firstField ln == "Usage"

/-- A registered tunnel: the value `[address_and_port, session_name, proc]`
stored in `self.ports_in_use[local_port]`. -/
structure TunnelEntry where
  addressAndPort : String
  sessionName : String
  procId : Nat
  deriving DecidableEq, Repr

/-- The tunnel supervisor's mutable state: the local-port allocation
cursor `self.local_port` and the table `self.ports_in_use` (a Python
dict, insertion-ordered, keys unique). -/
structure TunState where
  localPortCursor : Nat
  portsInUse : List (Nat × TunnelEntry)
  deriving DecidableEq, Repr

/-- `self.LOCAL_PORT_START`. -/
def LOCAL_PORT_START : Nat := 5901

/-- External-world observations made during a tunnel open: the
port-in-use probe at allocation time, whether `proc.poll()` reports the
just-spawned ssh process dead, and whether the forwarded local port is
active at the k-th check of the wait loop. -/
structure OpenEnv where
  inUse : Nat → Bool
  procDeadOnPoll : Bool
  portActive : Nat → Nat → Bool

/-- OS-level effects, recorded as a trace. -/
inductive Event where
  | spawnSSH (procId : Nat)
  | sleep100
  | killTunnel (procId : Nat)
  | terminateSound (procId : Nat)
  | terminateViewer (procId : Nat)
  | launchViewerThread (server : String) (localPort : Option Nat)
  | sysExit (code : Nat)
  deriving DecidableEq, Repr

/-- What a call to `open_ssh_tunnel` does: return a port, return the
Python value `False` (no free local port), or raise `RuntimeError`. -/
inductive OpenOutcome where
  | ok (localPort : Nat)
  | returnedFalse
  | raised (msg : String)
  deriving DecidableEq, Repr

/-- Recognizer for `Event.killTunnel`. -/
def isKillEvent : Event → Bool
  | Event.killTunnel _ => true
  | _ => false

/-- Recognizer for `Event.spawnSSH`. -/
def isSpawnEvent : Event → Bool
  | Event.spawnSSH _ => true
  | _ => false

/-- The `for i in range(0,100)` allocation loop (lines 637-644): probe
the cursor; when busy advance and retry, when free return it and advance
the cursor past it.  Returns the allocated port (if any) and the final
cursor. -/
def allocLoop (inUse : Nat → Bool) : Nat → Nat → Option Nat × Nat
  | cursor, 0 => (none, cursor)
  | cursor, attempts + 1 =>
    if inUse cursor then allocLoop inUse (cursor + 1) attempts
    else (some cursor, cursor + 1)

/-- Port resolution at the head of `open_ssh_tunnel` (lines 636-651): a
given `local_port` is used as-is; otherwise up to 100 consecutive ports
are probed; when all are busy the cursor is reset to `LOCAL_PORT_START`
(the `return False` path). -/
def resolvePort (env : OpenEnv) (st : TunState) :
    Option Nat → Option Nat × TunState
  | some p => (some p, st)
  | none =>
    match allocLoop env.inUse st.localPortCursor 100 with
    | (none, _) => (none, { st with localPortCursor := LOCAL_PORT_START })
    | (some p, c) => (some p, { st with localPortCursor := c })

/-- The `checks = 50` wait loop (lines 682-689): returns the final value
of `checks`; `0` means all 50 checks of the local port failed. -/
def pollLoop (active : Nat → Bool) : Nat → Nat → Nat
  | _, 0 => 0
  | i, checks + 1 => if active i then checks + 1 else pollLoop active (i + 1) checks

/-- `f"{username}@{server}:{remote_port}"`. -/
def addrStr (username server : String) (remotePort : Nat) : String :=
  username ++ "@" ++ server ++ ":" ++ Nat.repr remotePort

/-- Python dict assignment `self.ports_in_use[local_port] = in_use`:
overwrite in place when the key exists, else append. -/
def dictInsert (tbl : List (Nat × TunnelEntry)) (k : Nat) (v : TunnelEntry) :
    List (Nat × TunnelEntry) :=
  if tbl.any (fun kv => kv.1 == k) then
    tbl.map (fun kv => if kv.1 == k then (k, v) else kv)
  else tbl ++ [(k, v)]

/-- The successful-registration step `self.ports_in_use[local_port] =
in_use` (lines 694-695). -/
def registerTunnel (st : TunState) (lp : Nat) (entry : TunnelEntry) :
    TunState :=
  { st with portsInUse := dictInsert st.portsInUse lp entry }

/-- `LickVncLauncher.open_ssh_tunnel` (lines 613-697): resolve the local
port (`False` return when no free port), spawn the ssh forward, raise if
the process died at once, poll the local port up to 50 times sleeping
100ms after each failed check, raise on timeout, and only on success
register the tunnel in `ports_in_use` and return the local port. -/
def open_ssh_tunnel (env : OpenEnv) (st : TunState) (server username : String)
    (remotePort : Nat) (lpOpt : Option Nat) (sessionName : String)
    (procId : Nat) : OpenOutcome × TunState × List Event :=
  match resolvePort env st lpOpt with
  | (none, st1) => (OpenOutcome.returnedFalse, st1, [])
  | (some lp, st1) =>
    if env.procDeadOnPoll then
      (OpenOutcome.raised "subprocess failed to execute ssh", st1,
       [Event.spawnSSH procId])
    else if pollLoop (env.portActive lp) 0 50 = 0 then
      (OpenOutcome.raised "ssh tunnel failed to open after 5 seconds", st1,
       Event.spawnSSH procId ::
         List.replicate (50 - pollLoop (env.portActive lp) 0 50) Event.sleep100)
    else
      (OpenOutcome.ok lp,
       registerTunnel st1 lp
         (TunnelEntry.mk (addrStr username server remotePort) sessionName
           procId),
       Event.spawnSSH procId ::
         List.replicate (50 - pollLoop (env.portActive lp) 0 50) Event.sleep100)

/-- One tunnel-open request in a sequence: its environment and call
parameters (no preferred local port). -/
structure OpenCall where
  env : OpenEnv
  server : String
  username : String
  remotePort : Nat
  sessionName : String
  procId : Nat

/-- Run a sequence of `open_ssh_tunnel` calls, each with
`local_port=None`, threading the supervisor state. -/
def runOpens : List OpenCall → TunState → List OpenOutcome × TunState
  | [], st => ([], st)
  | c :: cs, st =>
    match open_ssh_tunnel c.env st c.server c.username c.remotePort none
        c.sessionName c.procId with
    | (out, st1, _) =>
      match runOpens cs st1 with
      | (outs, st2) => (out :: outs, st2)

/-- The local ports of the successful calls of a sequence. -/
def okPorts (outs : List OpenOutcome) : List Nat :=
  outs.filterMap fun o =>
    match o with
    | OpenOutcome.ok p => some p
    | _ => none

/-- Dict lookup `self.ports_in_use[p]` as used by the close path. -/
def findTunnel (tbl : List (Nat × TunnelEntry)) (p : Nat) :
    Option (Nat × TunnelEntry) :=
  tbl.find? (fun kv => kv.1 == p)

/-- `LickVncLauncher.close_ssh_thread` (lines 1172-1189): when port `p`
is a key of `ports_in_use`, pop its entry and `kill()` the backing
process; otherwise do nothing. -/
def close_ssh_thread (st : TunState) (p : Nat) : TunState × List Event :=
  match findTunnel st.portsInUse p with
  | some kv =>
    ({ st with portsInUse := st.portsInUse.filter (fun kv2 => kv2.1 != p) },
     [Event.killTunnel kv.2.procId])
  | none => (st, [])

/-- Fold of `close_ssh_thread` over a snapshot of the key list. -/
def closeAllAux : TunState → List Nat → TunState × List Event
  | st, [] => (st, [])
  | st, p :: ps =>
    ((closeAllAux (close_ssh_thread st p).1 ps).1,
     (close_ssh_thread st p).2 ++ (closeAllAux (close_ssh_thread st p).1 ps).2)

/-- `LickVncLauncher.close_ssh_threads` (lines 1192-1202):
`for p in list(self.ports_in_use.keys()): self.close_ssh_thread(p)`. -/
def close_ssh_threads (st : TunState) : TunState × List Event :=
  closeAllAux st (st.portsInUse.map Prod.fst)

/-- A spawned VNC viewer process in `self.vnc_processes`: `alive` is
whether `proc.poll()` returns `None` at teardown time. -/
structure ViewerProc where
  procId : Nat
  alive : Bool
  deriving DecidableEq, Repr

/-- Helper for `kill_vnc_processes`: terminate each still-alive process
of the given list, in order. -/
def killVncAux : List ViewerProc → List Event
  | [] => []
  | p :: rest =>
    (if p.alive then [Event.terminateViewer p.procId] else []) ++ killVncAux rest

/-- `LickVncLauncher.kill_vnc_processes` (lines 1572-1597): pop from the
end of `self.vnc_processes` until empty, terminating each process whose
`poll()` is still `None`. -/
def kill_vnc_processes (ps : List ViewerProc) : List Event :=
  killVncAux ps.reverse

/-- The launcher fields that `exit_app` touches: the `self.exit` guard
flag, the sound player, `self.ssh_forward`, the tunnel supervisor state,
and the viewer process list. -/
structure AppState where
  exitFlag : Bool
  sound : Option Nat
  sshForward : Bool
  tun : TunState
  vncProcesses : List ViewerProc
  deriving DecidableEq, Repr

/-- `LickVncLauncher.exit_app` (lines 1604-1632): return immediately when
`self.exit` is already set; otherwise terminate the sound player (when
any), close all ssh tunnels (when `ssh_forward`), terminate all VNC
viewer processes, set the guard flag, and `sys.exit(1)`. -/
def exit_app (st : AppState) : AppState × List Event :=
  if st.exitFlag then (st, [])
  else
    let soundEvs :=
      match st.sound with
      | some pid => [Event.terminateSound pid]
      | none => []
    let tunPair := if st.sshForward then close_ssh_threads st.tun else (st.tun, [])
    let vncEvs := kill_vnc_processes st.vncProcesses
    ({ st with exitFlag := true, tun := tunPair.1, vncProcesses := [] },
     soundEvs ++ tunPair.2 ++ vncEvs ++ [Event.sysExit 1])

/-- `LickVncLauncher.handle_fatal_error` (lines 1638-1663): print the
error and support info, then route through `exit_app`. -/
def handle_fatal_error (st : AppState) : AppState × List Event :=
  exit_app st

/-- Python `f"{port:4d}"`: the decimal form right-aligned in a field of
width 4, space-padded. -/
def format4d (n : Nat) : String :=
  if (Nat.repr n).length < 4 then
    String.mk (List.replicate (4 - (Nat.repr n).length) ' ') ++ Nat.repr n
  else Nat.repr n

/-- The target-address argument built by `LickVncLauncher.launch_vncviewer`
(lines 829-832): `f"{vncprefix}{vncserver}:{port:4d}"` when the viewer
command is `open`, `f"{vncprefix}{vncserver}::{port:4d}"` otherwise. -/
def launch_vncviewer_address (vncviewercmd vncpfx vncserver : String)
    (port : Nat) : String :=
  if vncviewercmd = "open" then vncpfx ++ vncserver ++ ":" ++ format4d port
  else vncpfx ++ vncserver ++ "::" ++ format4d port

/-- Helper for `pyIntParse`: accumulate decimal digits, failing on any
non-digit character. -/
def pyIntAux : List Char → Nat → Option Nat
  | [], acc => some acc
  | c :: rest, acc =>
    if c.isDigit then pyIntAux rest (acc * 10 + (c.toNat - 48)) else none

/-- Python `int(s)` for a nonnegative decimal string (whitespace
stripped); `none` models the `ValueError` raise. -/
def pyIntParse (s : String) : Option Nat :=
  match trimChars s.data with
  | [] => none
  | cs => pyIntAux cs 0

/-- `port = int(f"59{display:02d}")` (line 316): `59` followed by the
display number zero-padded to at least two digits. -/
def remotePortOf (d : Nat) : Nat :=
  59 * 10 ^ (max 2 (Nat.repr d).length) + d

/-- The configuration bits `start_vnc_session` consults: the configured
viewer command and `self.ssh_forward`. -/
structure LaunchConfig where
  vncviewer : Option String
  sshForward : Bool
  deriving DecidableEq, Repr

/-- The check `self.vncviewer in [None, 'None', 'none']` (line 355). -/
def viewerIsNone : Option String → Bool
  | none => true
  | some s => s == "None" || s == "none"

/-- What a call to `start_vnc_session` does. -/
inductive StartOutcome where
  | noSession
  | raisedValueError
  | tunnelFailed
  | noViewer (localPort : Option Nat)
  | launched (localPort : Option Nat)
  deriving DecidableEq, Repr

/-- The reuse scan of `start_vnc_session` (lines 327-332): the first port
of `ports_in_use` whose stored session name equals the requested display. -/
def findPortForSession (tbl : List (Nat × TunnelEntry)) (display : String) :
    Option Nat :=
  (tbl.find? (fun kv => kv.2.sessionName == display)).map Prod.fst

/-- The tail of `start_vnc_session` (lines 353-372): when no viewer
command is configured, return after telling the user to connect manually;
otherwise start the viewer-launch thread against the local port (which is
the Python value `False`, modelled `none`, when `open_ssh_tunnel` found
no free port). -/
def afterTunnel (cfg : LaunchConfig) (st : TunState) (server : String)
    (lp : Option Nat) (evs : List Event) : StartOutcome × TunState × List Event :=
  if viewerIsNone cfg.vncviewer then (StartOutcome.noViewer lp, st, evs)
  else (StartOutcome.launched lp, st, evs ++ [Event.launchViewerThread server lp])

/-- `LickVncLauncher.start_vnc_session` (lines 287-372): look up the
requested display among the discovered sessions; compute the remote VNC
port; reuse an existing tunnel for this session when `ports_in_use`
already has one, else open a new tunnel (an exception from
`open_ssh_tunnel` is caught, logged, and the session skipped; a `False`
return is not detected and flows into the viewer launch); finally launch
the viewer thread unless no viewer is configured. -/
def start_vnc_session (env : OpenEnv) (cfg : LaunchConfig) (st : TunState)
    (sessions : List VNCSession) (sessionDisplay : String)
    (vncserver username : String) (procId : Nat) :
    StartOutcome × TunState × List Event :=
  match sessions.find? (fun s => s.display == sessionDisplay) with
  | none => (StartOutcome.noSession, st, [])
  | some session =>
    match pyIntParse session.display with
    | none => (StartOutcome.raisedValueError, st, [])
    | some d =>
      if cfg.sshForward then
        match findPortForSession st.portsInUse sessionDisplay with
        | some p => afterTunnel cfg st "localhost" (some p) []
        | none =>
          match open_ssh_tunnel env st vncserver username (remotePortOf d)
              none sessionDisplay procId with
          | (OpenOutcome.raised _, st1, evs) =>
            (StartOutcome.tunnelFailed, st1, evs)
          | (OpenOutcome.returnedFalse, st1, evs) =>
            afterTunnel cfg st1 "localhost" none evs
          | (OpenOutcome.ok p, st1, evs) =>
            afterTunnel cfg st1 "localhost" (some p) evs
      else afterTunnel cfg st vncserver (some (remotePortOf d)) []

/-- At most one tunnel per session name: the table's stored session
names are pairwise distinct. -/
def sessionUnique (tbl : List (Nat × TunnelEntry)) : Prop :=
  tbl.Pairwise (fun a b => a.2.sessionName ≠ b.2.sessionName)

/-! Lemmas about the discovery parse. -/

theorem lineStep_stop_iff (account ln : String) :
    lineStep account ln = LineStep.stop ↔ usageStop ln = true := by
  unfold lineStep usageStop
  rcases hl : ln.data with _ | ⟨c, cs⟩ <;> simp only [hl]
  · simp
  · by_cases hc : c = '#'
    · simp [hc]
    · simp only [if_neg hc]
      by_cases hu : firstField ln = "Usage"
      · simp [hu]
      · simp only [if_neg hu]
        rcases hf : (pySplit ln '-')[1]? with _ | f1 <;> simp only [hf] <;>
          simp [hu]

theorem lineStep_push_display (account ln : String) (s : VNCSession)
    (h : lineStep account ln = LineStep.push s) : s.display ≠ "Usage" := by
  unfold lineStep at h
  rcases hl : ln.data with _ | ⟨c, cs⟩ <;> simp only [hl] at h
  · cases h
  · by_cases hc : c = '#'
    · rw [if_pos hc] at h; cases h
    · rw [if_neg hc] at h
      by_cases hu : firstField ln = "Usage"
      · rw [if_pos hu] at h; cases h
      · rw [if_neg hu] at h
        rcases hf : (pySplit ln '-')[1]? with _ | f1 <;> simp only [hf] at h
        · cases h
        · cases h; exact hu

theorem parseLines_ok_no_usage (account : String) :
    ∀ (lns : List String) (acc ss : List VNCSession),
      (∀ s ∈ acc, s.display ≠ "Usage") →
      parseLines account lns acc = Except.ok ss →
      ∀ s ∈ ss, s.display ≠ "Usage" := by
  intro lns
  induction lns with
  | nil =>
    intro acc ss hacc h
    simp only [parseLines, Except.ok.injEq] at h
    exact h ▸ hacc
  | cons ln rest ih =>
    intro acc ss hacc h
    rw [parseLines] at h
    cases hstep : lineStep account ln <;> rw [hstep] at h
    · cases h
    · exact ih acc ss hacc h
    · simp only [Except.ok.injEq] at h
      exact h ▸ hacc
    · rename_i s
      refine ih _ ss ?_ h
      intro x hx
      rcases List.mem_append.mp hx with hx | hx
      · exact hacc x hx
      · simp only [List.mem_singleton] at hx
        exact hx ▸ lineStep_push_display account ln s hstep

theorem parseLines_empty_line (account : String) :
    ∀ (pre post : List String) (acc : List VNCSession),
      (∀ l ∈ pre, usageStop l = false) →
      parseLines account (pre ++ "" :: post) acc =
        Except.error PyExn.indexError := by
  intro pre
  induction pre with
  | nil =>
    intro post acc _
    simp [parseLines, lineStep]
  | cons l pre ih =>
    intro post acc hpre
    have hl : usageStop l = false := hpre l (by simp)
    rw [List.cons_append, parseLines]
    cases hstep : lineStep account l
    · rfl
    · exact ih post acc fun x hx => hpre x (by simp [hx])
    · rw [(lineStep_stop_iff account l).mp hstep] at hl; cases hl
    · exact ih post _ fun x hx => hpre x (by simp [hx])

/-- C4 (amended): a discovery-output line whose first field is `Usage`
makes the parse loop `break`: the sessions collected so far are returned
(an error is logged, but no exception is raised), and consequently a
returned session list never contains a session whose first field
(`display`) is `Usage`. -/
theorem get_vnc_sessions_usage_spec :
    (∀ data account ss, get_vnc_sessions_parse data account = Except.ok ss →
        ∀ s ∈ ss, s.display ≠ "Usage") ∧
    (∀ account ln rest acc, usageStop ln = true →
        parseLines account (ln :: rest) acc = Except.ok acc) := by
  constructor
  · intro data account ss h s hs
    unfold get_vnc_sessions_parse at h
    by_cases hd : data = ""
    · rw [if_pos hd] at h
      simp only [Except.ok.injEq] at h
      rw [← h] at hs
      cases hs
    · rw [if_neg hd] at h
      exact parseLines_ok_no_usage account (pySplit data '\n') [] ss
        (by intro x hx; cases hx) h s hs
  · intro account ln rest acc hstop
    rw [parseLines, (lineStep_stop_iff account ln).mpr hstop]

/-- C4 witness: `get_vnc_sessions_usage_spec` applied at a concrete
output with one good line followed by a `Usage` line. -/
theorem get_vnc_sessions_usage_spec_witness :
    (∀ s ∈ [({ name := "1 - Kast blue - extra", display := "1",
               desktop := "Kast blue", user := "user" } : VNCSession)],
       s.display ≠ "Usage") ∧
    parseLines "user" ["Usage - boo", "2 - b - c"] [] = Except.ok [] :=
  ⟨get_vnc_sessions_usage_spec.1 "1 - Kast blue - extra\nUsage - boo" "user"
      [⟨"1 - Kast blue - extra", "1", "Kast blue", "user"⟩] rfl,
   get_vnc_sessions_usage_spec.2 "user" "Usage - boo" ["2 - b - c"] []
      (by decide)⟩

/-- C4 counterexample: for the discovery output
`"1 - Kast blue - extra\nUsage - boo"` (first field of the second line is
`Usage`), `get_vnc_sessions` returns a session list — the sessions parsed
before the `Usage` line — rather than failing with a fatal discovery
error. -/
theorem get_vnc_sessions_usage_counterexample :
    get_vnc_sessions_parse "1 - Kast blue - extra\nUsage - boo" "user" =
      Except.ok [⟨"1 - Kast blue - extra", "1", "Kast blue", "user"⟩] := rfl

/-- C10 (amended): the parse loop indexes `ln[0]` without a length
guard, so whenever the split of a nonempty discovery output contains an
empty line that the loop actually reaches — no earlier line has first
field `Usage`, which would `break` first — the parse raises `IndexError`
instead of skipping the line or returning the sessions parsed so far. -/
theorem get_vnc_sessions_empty_line_raises (data account : String)
    (pre post : List String)
    (hdata : data ≠ "")
    (hsplit : pySplit data '\n' = pre ++ "" :: post)
    (hpre : ∀ l ∈ pre, usageStop l = false) :
    get_vnc_sessions_parse data account = Except.error PyExn.indexError := by
  unfold get_vnc_sessions_parse
  rw [if_neg hdata, hsplit]
  exact parseLines_empty_line account pre post [] hpre

/-- C10 witness: `get_vnc_sessions_empty_line_raises` at the concrete
output `"1 - a\n\n2 - b"`, whose second line is empty. -/
theorem get_vnc_sessions_empty_line_raises_witness :
    get_vnc_sessions_parse "1 - a\n\n2 - b" "user" =
      Except.error PyExn.indexError :=
  get_vnc_sessions_empty_line_raises "1 - a\n\n2 - b" "user"
    ["1 - a"] ["2 - b"] (by decide) (by decide) (by decide)

/-- C10 counterexample: the discovery output `"Usage - x\n\n1 - a"`
contains an empty line, yet the parse raises nothing: the `Usage` line
breaks out of the loop first and the empty session list is returned. -/
theorem get_vnc_sessions_empty_line_counterexample :
    ("" ∈ pySplit "Usage - x\n\n1 - a" '\n') ∧
    get_vnc_sessions_parse "Usage - x\n\n1 - a" "user" = Except.ok [] :=
  ⟨by decide, rfl⟩

/-! Lemmas about the viewer address. -/

theorem format4d_of_four_digits (n : Nat) (h : 4 ≤ (Nat.repr n).length) :
    format4d n = Nat.repr n := by
  unfold format4d
  rw [if_neg (by omega)]

/-- C9 (amended): the viewer target address is
`prefix ++ host ++ ":" ++ port` exactly for the `open` viewer command and
`prefix ++ host ++ "::" ++ port` for every other command, where the port
is rendered by Python `{port:4d}` — right-aligned in a width-4 field, so
the plain-concatenation form holds whenever the port has at least four
decimal digits (in particular for every real VNC port such as 5901). -/
theorem launch_vncviewer_address_spec (cmd pfx host : String) (port : Nat)
    (h : 4 ≤ (Nat.repr port).length) :
    launch_vncviewer_address cmd pfx host port =
      pfx ++ host ++ (if cmd = "open" then ":" else "::") ++ Nat.repr port := by
  unfold launch_vncviewer_address
  by_cases hc : cmd = "open" <;>
    simp [hc, format4d_of_four_digits port h]

/-- C9 witness: the non-`open` flavor at host `localhost`, port 5901
gives `localhost::5901`. -/
theorem launch_vncviewer_address_spec_witness :
    launch_vncviewer_address "vncviewer" "" "localhost" 5901 =
        "" ++ "localhost" ++
          (if ("vncviewer" : String) = "open" then ":" else "::") ++
          Nat.repr 5901 ∧
    launch_vncviewer_address "vncviewer" "" "localhost" 5901 =
        "localhost::5901" :=
  ⟨launch_vncviewer_address_spec "vncviewer" "" "localhost" 5901 (by decide),
   by decide⟩

/-- C9 counterexample: at port 999 the `{port:4d}` formatting inserts a
padding space, so the produced address is `localhost:: 999`, not the
plain concatenation `localhost::999` the claim asserts for every port. -/
theorem launch_vncviewer_address_counterexample :
    launch_vncviewer_address "vncviewer" "" "localhost" 999 =
        "localhost:: 999" ∧
    launch_vncviewer_address "vncviewer" "" "localhost" 999 ≠
        "" ++ "localhost" ++ "::" ++ Nat.repr 999 := by decide

/-! Lemmas about the tunnel-open operation. -/

theorem pollLoop_never (active : Nat → Bool) (h : ∀ k, active k = false) :
    ∀ (i checks : Nat), pollLoop active i checks = 0 := by
  intro i checks
  induction checks generalizing i with
  | zero => rfl
  | succ n ih => rw [pollLoop, h i, if_neg (by simp)]; exact ih (i + 1)

theorem resolvePort_portsInUse (env : OpenEnv) (st : TunState)
    (lpOpt x : Option Nat) (st1 : TunState)
    (h : resolvePort env st lpOpt = (x, st1)) :
    st1.portsInUse = st.portsInUse := by
  cases lpOpt with
  | some p => rw [resolvePort] at h; injection h with h1 h2; rw [← h2]
  | none =>
    rw [resolvePort] at h
    rcases halloc : allocLoop env.inUse st.localPortCursor 100 with ⟨op, c⟩
    rw [halloc] at h
    cases op <;> simp only at h <;> injection h with h1 h2 <;> rw [← h2]

/-- C2 (amended): when the spawned ssh process stays alive but the
requested local port never becomes active, `open_ssh_tunnel` polls the
port 50 times, sleeping 100 ms after each failed check, and then raises
the timeout `RuntimeError` — it does NOT kill the spawned ssh process —
and on this failure path the tunnel is never registered in
`ports_in_use`. -/
theorem open_ssh_tunnel_timeout (env : OpenEnv) (st : TunState)
    (server username : String) (remotePort : Nat) (lpOpt : Option Nat)
    (sessionName : String) (procId lp : Nat) (st1 : TunState)
    (hres : resolvePort env st lpOpt = (some lp, st1))
    (halive : env.procDeadOnPoll = false)
    (hnever : ∀ k, env.portActive lp k = false) :
    open_ssh_tunnel env st server username remotePort lpOpt sessionName
        procId =
      (OpenOutcome.raised "ssh tunnel failed to open after 5 seconds", st1,
       Event.spawnSSH procId :: List.replicate 50 Event.sleep100) ∧
    st1.portsInUse = st.portsInUse ∧
    (Event.spawnSSH procId :: List.replicate 50 Event.sleep100).all
      (fun e => !(isKillEvent e)) = true := by
  refine ⟨?_, resolvePort_portsInUse env st lpOpt (some lp) st1 hres, ?_⟩
  · rw [open_ssh_tunnel, hres]
    simp only [halive, Bool.false_eq_true, if_false,
      pollLoop_never (env.portActive lp) hnever 0 50, if_pos rfl,
      eq_self_iff_true, if_true, Nat.sub_zero]
  · simp only [List.all_cons, List.all_eq_true, Bool.and_eq_true]
    refine ⟨rfl, ?_⟩
    intro e he
    rw [List.eq_of_mem_replicate he]
    rfl

/-- C2 witness: `open_ssh_tunnel_timeout` at a concrete request for the
preferred soundplay port 9798 whose forwarded port never comes up. -/
theorem open_ssh_tunnel_timeout_witness :
    open_ssh_tunnel ⟨fun _ => true, false, fun _ _ => false⟩ ⟨7000, []⟩
        "noir.ucolick.org" "user" 9798 (some 9798) "soundplay" 3 =
      (OpenOutcome.raised "ssh tunnel failed to open after 5 seconds",
       ⟨7000, []⟩,
       Event.spawnSSH 3 :: List.replicate 50 Event.sleep100) ∧
    (⟨7000, []⟩ : TunState).portsInUse =
      (⟨7000, []⟩ : TunState).portsInUse ∧
    (Event.spawnSSH 3 :: List.replicate 50 Event.sleep100).all
      (fun e => !(isKillEvent e)) = true :=
  open_ssh_tunnel_timeout ⟨fun _ => true, false, fun _ _ => false⟩
    ⟨7000, []⟩ "noir.ucolick.org" "user" 9798 (some 9798) "soundplay" 3 9798
    ⟨7000, []⟩ rfl rfl (fun _ => rfl)

/-- C2 counterexample: on a concrete timeout run (process alive, port
never active) the event trace holds one spawn and fifty sleeps but no
kill of the spawned ssh process, the claimed `kill` never happens, and
the returned error is a raised `RuntimeError` with the 5-second timeout
message; the port table stays empty. -/
theorem open_ssh_tunnel_timeout_counterexample :
    open_ssh_tunnel ⟨fun _ => false, false, fun _ _ => false⟩ ⟨5901, []⟩
        "shimmy.ucolick.org" "user" 5901 none "1" 42 =
      (OpenOutcome.raised "ssh tunnel failed to open after 5 seconds",
       ⟨5902, []⟩,
       Event.spawnSSH 42 :: List.replicate 50 Event.sleep100) ∧
    ((open_ssh_tunnel ⟨fun _ => false, false, fun _ _ => false⟩ ⟨5901, []⟩
        "shimmy.ucolick.org" "user" 5901 none "1" 42).2.2.all
      (fun e => !(isKillEvent e))) = true := by decide

/-! Lemmas about port allocation. -/

theorem allocLoop_some (inUse : Nat → Bool) :
    ∀ (attempts cursor p c : Nat),
      allocLoop inUse cursor attempts = (some p, c) →
      cursor ≤ p ∧ c = p + 1 ∧ inUse p = false := by
  intro attempts
  induction attempts with
  | zero => intro cursor p c h; exact absurd h (by simp [allocLoop])
  | succ n ih =>
    intro cursor p c h
    rw [allocLoop] at h
    by_cases hb : inUse cursor
    · rw [if_pos hb] at h
      obtain ⟨h1, h2, h3⟩ := ih (cursor + 1) p c h
      exact ⟨by omega, h2, h3⟩
    · rw [if_neg hb] at h
      injection h with h1 h2
      injection h1 with h1
      subst h1
      subst h2
      exact ⟨Nat.le_refl _, rfl, by simpa using hb⟩

/-- Case analysis of `open_ssh_tunnel` with `local_port=None`: either no
free port was found (cursor reset, `False` returned, nothing registered),
or a port `p` at or above the cursor with a negative in-use probe was
allocated and the cursor advanced past it; in the latter case the call
either raised (nothing registered) or returned `p` and registered it. -/
theorem open_ssh_tunnel_none_cases (env : OpenEnv) (st : TunState)
    (server username : String) (remotePort : Nat) (sessionName : String)
    (procId : Nat) (out : OpenOutcome) (st' : TunState) (evs : List Event)
    (h : open_ssh_tunnel env st server username remotePort none sessionName
        procId = (out, st', evs)) :
    (out = OpenOutcome.returnedFalse ∧ st'.portsInUse = st.portsInUse ∧
        st'.localPortCursor = LOCAL_PORT_START) ∨
    ∃ p, st.localPortCursor ≤ p ∧ st'.localPortCursor = p + 1 ∧
        env.inUse p = false ∧
        (((∃ m, out = OpenOutcome.raised m) ∧
            st'.portsInUse = st.portsInUse) ∨
         (out = OpenOutcome.ok p ∧
            st'.portsInUse =
              dictInsert st.portsInUse p
                (TunnelEntry.mk (addrStr username server remotePort)
                  sessionName procId))) := by
  rw [open_ssh_tunnel, resolvePort] at h
  rcases halloc : allocLoop env.inUse st.localPortCursor 100 with ⟨op, c⟩
  rw [halloc] at h
  cases op with
  | none =>
    simp only at h
    injection h with h1 h2
    injection h2 with h2 h3
    subst h1
    subst h2
    exact Or.inl ⟨rfl, rfl, rfl⟩
  | some p =>
    obtain ⟨hle, hc, hfree⟩ :=
      allocLoop_some env.inUse 100 st.localPortCursor p c halloc
    subst hc
    simp only at h
    refine Or.inr ⟨p, hle, ?_⟩
    by_cases hd : env.procDeadOnPoll
    · rw [if_pos hd] at h
      injection h with h1 h2
      injection h2 with h2 h3
      subst h1
      subst h2
      exact ⟨rfl, hfree, Or.inl ⟨⟨_, rfl⟩, rfl⟩⟩
    · rw [if_neg hd] at h
      by_cases hrem : pollLoop (env.portActive p) 0 50 = 0
      · rw [if_pos hrem] at h
        injection h with h1 h2
        injection h2 with h2 h3
        subst h1
        subst h2
        exact ⟨rfl, hfree, Or.inl ⟨⟨_, rfl⟩, rfl⟩⟩
      · rw [if_neg hrem] at h
        injection h with h1 h2
        injection h2 with h2 h3
        subst h1
        subst h2
        exact ⟨rfl, hfree, Or.inr ⟨rfl, rfl⟩⟩

theorem okPorts_cons_ok (p : Nat) (outs : List OpenOutcome) :
    okPorts (OpenOutcome.ok p :: outs) = p :: okPorts outs := rfl

theorem okPorts_cons_raised (m : String) (outs : List OpenOutcome) :
    okPorts (OpenOutcome.raised m :: outs) = okPorts outs := rfl

theorem runOpens_cursor_lb (calls : List OpenCall) :
    ∀ st : TunState,
      (∀ o ∈ (runOpens calls st).1, o ≠ OpenOutcome.returnedFalse) →
      (∀ p ∈ okPorts (runOpens calls st).1, st.localPortCursor ≤ p) ∧
      (okPorts (runOpens calls st).1).Pairwise (fun a b => a < b) := by
  induction calls with
  | nil =>
    intro st _
    exact ⟨fun p hp => absurd hp (by simp [runOpens, okPorts]), by
      simp [runOpens, okPorts]⟩
  | cons c cs ih =>
    intro st hok
    rcases hopen : open_ssh_tunnel c.env st c.server c.username c.remotePort
        none c.sessionName c.procId with ⟨out, st1, evs⟩
    have hrun : runOpens (c :: cs) st =
        (out :: (runOpens cs st1).1, (runOpens cs st1).2) := by
      rw [runOpens, hopen]
    rw [hrun] at hok ⊢
    have hout : out ≠ OpenOutcome.returnedFalse := hok out (by simp)
    have htail : ∀ o ∈ (runOpens cs st1).1, o ≠ OpenOutcome.returnedFalse :=
      fun o ho => hok o (by simp [ho])
    obtain ⟨hlb, hpw⟩ := ih st1 htail
    rcases open_ssh_tunnel_none_cases c.env st c.server c.username
        c.remotePort c.sessionName c.procId out st1 evs hopen with
      ⟨hrf, _, _⟩ | ⟨p, hle, hcur, _, hcase⟩
    · exact absurd hrf hout
    · have hlb1 : ∀ q ∈ okPorts (runOpens cs st1).1, p + 1 ≤ q := by
        intro q hq
        have := hlb q hq
        omega
      rcases hcase with ⟨⟨m, hm⟩, _⟩ | ⟨hokp, _⟩
      · subst hm
        rw [okPorts_cons_raised]
        refine ⟨fun q hq => ?_, hpw⟩
        have := hlb1 q hq
        omega
      · subst hokp
        rw [okPorts_cons_ok]
        constructor
        · intro q hq
          rcases List.mem_cons.mp hq with hq | hq
          · omega
          · have := hlb1 q hq
            omega
        · rw [List.pairwise_cons]
          exact ⟨fun q hq => by have := hlb1 q hq; omega, hpw⟩

/-- C3 (amended): for every sequence of `open_ssh_tunnel` calls with no
preferred local port in which no call exhausts its 100 allocation probes
(a `False`-returning call resets the cursor to `LOCAL_PORT_START`, after
which an earlier port can be handed out again), the returned local ports
are pairwise distinct: each allocation probes consecutive ports upward
from the cursor, returns the first free one, and advances the cursor past
it, so the successful ports are strictly increasing. -/
theorem runOpens_distinct (calls : List OpenCall) (st : TunState)
    (hok : ∀ o ∈ (runOpens calls st).1, o ≠ OpenOutcome.returnedFalse) :
    (okPorts (runOpens calls st).1).Pairwise (fun a b => a ≠ b) :=
  ((runOpens_cursor_lb calls st hok).2).imp fun h => Nat.ne_of_lt h

/-- C3 witness: two concrete calls with distinct session labels and all
probes free yield the distinct ports 5901 and 5902. -/
theorem runOpens_distinct_witness :
    (okPorts (runOpens
        [⟨⟨fun _ => false, false, fun _ _ => true⟩, "s", "u", 5901, "a", 1⟩,
         ⟨⟨fun _ => false, false, fun _ _ => true⟩, "s", "u", 5902, "b", 2⟩]
        ⟨5901, []⟩).1).Pairwise (fun a b => a ≠ b) :=
  runOpens_distinct
    [⟨⟨fun _ => false, false, fun _ _ => true⟩, "s", "u", 5901, "a", 1⟩,
     ⟨⟨fun _ => false, false, fun _ _ => true⟩, "s", "u", 5902, "b", 2⟩]
    ⟨5901, []⟩ (by decide)

/-- C3 counterexample: three calls with distinct session labels `a`, `b`,
`c` and no preferred port.  The first allocates 5901; the second finds
all 100 probed ports busy, returns `False`, and resets the cursor to
5901; the third then allocates 5901 again — the returned ports
`[5901, 5901]` are not pairwise distinct. -/
theorem runOpens_distinct_counterexample :
    okPorts (runOpens
        [⟨⟨fun _ => false, false, fun _ _ => true⟩, "s", "u", 5901, "a", 1⟩,
         ⟨⟨fun _ => true, false, fun _ _ => true⟩, "s", "u", 5902, "b", 2⟩,
         ⟨⟨fun _ => false, false, fun _ _ => true⟩, "s", "u", 5903, "c", 3⟩]
        ⟨5901, []⟩).1 = [5901, 5901] ∧
    ¬ (okPorts (runOpens
        [⟨⟨fun _ => false, false, fun _ _ => true⟩, "s", "u", 5901, "a", 1⟩,
         ⟨⟨fun _ => true, false, fun _ _ => true⟩, "s", "u", 5902, "b", 2⟩,
         ⟨⟨fun _ => false, false, fun _ _ => true⟩, "s", "u", 5903, "c", 3⟩]
        ⟨5901, []⟩).1).Pairwise (fun a b => a ≠ b) := by decide

/-! Lemmas about closing tunnels. -/

theorem close_ssh_thread_head (c : Nat) (p : Nat) (e : TunnelEntry)
    (rest : List (Nat × TunnelEntry)) (hp : p ∉ rest.map Prod.fst) :
    close_ssh_thread ⟨c, (p, e) :: rest⟩ p =
      (⟨c, rest⟩, [Event.killTunnel e.procId]) := by
  have hfind : findTunnel ((p, e) :: rest) p = some (p, e) := by
    rw [findTunnel]
    exact List.find?_cons_of_pos _ (by simp)
  have hfilter : ((p, e) :: rest).filter (fun kv2 => kv2.1 != p) = rest := by
    rw [List.filter_cons_of_neg (by simp)]
    apply List.filter_eq_self.mpr
    intro kv hkv
    simp only [bne_iff_ne, ne_eq]
    intro heq
    exact hp (List.mem_map.mpr ⟨kv, hkv, heq⟩)
  simp only [close_ssh_thread, hfind, hfilter]

theorem closeAllAux_full (c : Nat) :
    ∀ tbl : List (Nat × TunnelEntry),
      (tbl.map Prod.fst).Nodup →
      closeAllAux ⟨c, tbl⟩ (tbl.map Prod.fst) =
        (⟨c, []⟩, tbl.map fun kv => Event.killTunnel kv.2.procId) := by
  intro tbl
  induction tbl with
  | nil => intro _; rfl
  | cons kv rest ih =>
    intro hnd
    obtain ⟨p, e⟩ := kv
    rw [List.map_cons] at hnd ⊢
    have hp : p ∉ rest.map Prod.fst := by
      have := (List.nodup_cons.mp hnd).1
      simpa using this
    have hnd2 : (rest.map Prod.fst).Nodup := (List.nodup_cons.mp hnd).2
    rw [closeAllAux, close_ssh_thread_head c p e rest hp, ih hnd2]
    rfl

/-- C5 (confirmed): for every port table with `N` open tunnels (keys
unique, as in a Python dict), `close_ssh_threads` removes every entry,
leaving the table empty, and sends exactly one kill signal per backing
process, in table order (`N` signals total); calling it again afterwards
changes nothing and kills nothing (and, being a total function of the
state, never raises). -/
theorem close_ssh_threads_spec (tun : TunState)
    (hnd : (tun.portsInUse.map Prod.fst).Nodup) :
    (close_ssh_threads tun).1.portsInUse = [] ∧
    (close_ssh_threads tun).2 =
      tun.portsInUse.map (fun kv => Event.killTunnel kv.2.procId) ∧
    close_ssh_threads (close_ssh_threads tun).1 =
      ((close_ssh_threads tun).1, []) := by
  obtain ⟨c, tbl⟩ := tun
  have hfull := closeAllAux_full c tbl hnd
  have hthreads : close_ssh_threads ⟨c, tbl⟩ =
      (⟨c, []⟩, tbl.map fun kv => Event.killTunnel kv.2.procId) := by
    rw [close_ssh_threads]
    exact hfull
  rw [hthreads]
  exact ⟨rfl, rfl, rfl⟩

/-- C5 witness: `close_ssh_threads_spec` at a concrete two-tunnel table:
both entries are removed and exactly the two kill signals are sent. -/
theorem close_ssh_threads_spec_witness :
    (close_ssh_threads ⟨5903, [(5901, ⟨"user@shimmy:5901", "1", 11⟩),
        (5902, ⟨"user@shimmy:5902", "2", 12⟩)]⟩).1.portsInUse = [] ∧
    (close_ssh_threads ⟨5903, [(5901, ⟨"user@shimmy:5901", "1", 11⟩),
        (5902, ⟨"user@shimmy:5902", "2", 12⟩)]⟩).2 =
      [(5901, (⟨"user@shimmy:5901", "1", 11⟩ : TunnelEntry)),
       (5902, ⟨"user@shimmy:5902", "2", 12⟩)].map
        (fun kv => Event.killTunnel kv.2.procId) ∧
    close_ssh_threads (close_ssh_threads ⟨5903,
        [(5901, ⟨"user@shimmy:5901", "1", 11⟩),
         (5902, ⟨"user@shimmy:5902", "2", 12⟩)]⟩).1 =
      ((close_ssh_threads ⟨5903, [(5901, ⟨"user@shimmy:5901", "1", 11⟩),
          (5902, ⟨"user@shimmy:5902", "2", 12⟩)]⟩).1, []) :=
  close_ssh_threads_spec ⟨5903, [(5901, ⟨"user@shimmy:5901", "1", 11⟩),
    (5902, ⟨"user@shimmy:5902", "2", 12⟩)]⟩ (by decide)

theorem findTunnel_filter (tbl : List (Nat × TunnelEntry)) (p : Nat) :
    findTunnel (tbl.filter (fun kv2 => kv2.1 != p)) p = none := by
  rw [findTunnel]
  apply List.find?_eq_none.mpr
  intro kv hkv
  have := (List.mem_filter.mp hkv).2
  simp only [bne_iff_ne, ne_eq] at this
  simp [this]

/-- C6 (confirmed): closing a local port removes its entry from the port
table and kills its backing process; closing a port that is not in the
table is a no-op.  Hence `close p` twice equals `close p` once — the
second call finds nothing, removes nothing, and kills nothing — and after
the first close the table no longer contains an entry for `p`. -/
theorem close_ssh_thread_idem (tun : TunState) (p : Nat) :
    close_ssh_thread (close_ssh_thread tun p).1 p =
      ((close_ssh_thread tun p).1, []) ∧
    findTunnel (close_ssh_thread tun p).1.portsInUse p = none ∧
    (findTunnel tun.portsInUse p = none →
        close_ssh_thread tun p = (tun, [])) ∧
    (∀ kv, findTunnel tun.portsInUse p = some kv →
        (close_ssh_thread tun p).2 = [Event.killTunnel kv.2.procId] ∧
        (close_ssh_thread tun p).1.portsInUse =
          tun.portsInUse.filter (fun kv2 => kv2.1 != p)) := by
  rcases hfind : findTunnel tun.portsInUse p with _ | kv
  · have hclose : close_ssh_thread tun p = (tun, []) := by
      rw [close_ssh_thread, hfind]
    rw [hclose]
    exact ⟨hclose, hfind, fun _ => rfl,
      fun kv hkv => Option.noConfusion hkv⟩
  · have hclose : close_ssh_thread tun p =
        ({ tun with portsInUse :=
            tun.portsInUse.filter (fun kv2 => kv2.1 != p) },
         [Event.killTunnel kv.2.procId]) := by
      rw [close_ssh_thread, hfind]
    rw [hclose]
    have hnone : findTunnel
        (tun.portsInUse.filter (fun kv2 => kv2.1 != p)) p = none :=
      findTunnel_filter tun.portsInUse p
    refine ⟨?_, hnone, ?_, ?_⟩
    · rw [close_ssh_thread]
      simp only [hnone]
    · intro hn
      exact Option.noConfusion hn
    · intro kv2 hkv2
      injection hkv2 with hkv2
      subst hkv2
      exact ⟨rfl, rfl⟩

/-! Lemmas about the teardown path. -/

/-- C1 (confirmed): the teardown runs its cleanup at most once — the
`self.exit` guard makes every call after the first return immediately —
and the single execution performs, in order: terminate the sound player,
close all ssh tunnels (one kill per table entry), terminate all still
alive VNC viewer processes, then exit the process with status 1; the
fatal-error handler routes through the same `exit_app`.  (The key-unique
hypothesis is the Python-dict invariant of `ports_in_use`.) -/
theorem exit_app_runs_once (st : AppState)
    (hflag : st.exitFlag = false)
    (hnd : (st.tun.portsInUse.map Prod.fst).Nodup) :
    (exit_app st).1.exitFlag = true ∧
    exit_app (exit_app st).1 = ((exit_app st).1, []) ∧
    (exit_app st).2 =
      (match st.sound with
       | some pid => [Event.terminateSound pid]
       | none => []) ++
      (if st.sshForward then
        st.tun.portsInUse.map (fun kv => Event.killTunnel kv.2.procId)
       else []) ++
      kill_vnc_processes st.vncProcesses ++ [Event.sysExit 1] ∧
    (st.sshForward = true → (exit_app st).1.tun.portsInUse = []) ∧
    handle_fatal_error st = exit_app st := by
  obtain ⟨flag, sound, fwd, ⟨c, tbl⟩, vnc⟩ := st
  simp only at hflag hnd
  subst hflag
  have hclose : close_ssh_threads ⟨c, tbl⟩ =
      (⟨c, []⟩, tbl.map fun kv => Event.killTunnel kv.2.procId) := by
    rw [close_ssh_threads]
    exact closeAllAux_full c tbl hnd
  have hexit : exit_app ⟨false, sound, fwd, ⟨c, tbl⟩, vnc⟩ =
      (⟨true, sound, fwd,
          (if fwd then close_ssh_threads ⟨c, tbl⟩ else (⟨c, tbl⟩, [])).1, []⟩,
       (match sound with
        | some pid => [Event.terminateSound pid]
        | none => []) ++
         (if fwd then close_ssh_threads ⟨c, tbl⟩ else (⟨c, tbl⟩, [])).2 ++
         kill_vnc_processes vnc ++ [Event.sysExit 1]) := by
    rw [exit_app]
    rfl
  refine ⟨?_, ?_, ?_, ?_, rfl⟩
  · rw [hexit]
  · rw [hexit]
    rw [exit_app]
    rfl
  · rw [hexit]
    cases fwd
    · rfl
    · rw [hclose]
      simp
  · intro hfwd
    subst hfwd
    rw [hexit]
    simp [hclose]

/-- C1 witness: `exit_app_runs_once` at a concrete state with a sound
player, one open tunnel, one live viewer and one already-exited viewer:
the trace is sound-terminate, tunnel-kill, viewer-terminate, exit, the
guard flag is set, and a second call does nothing. -/
theorem exit_app_runs_once_witness :
    (exit_app ⟨false, some 1, true,
        ⟨5902, [(5901, ⟨"user@shimmy:5901", "1", 11⟩)]⟩,
        [⟨21, true⟩, ⟨22, false⟩]⟩).1.exitFlag = true ∧
    exit_app (exit_app ⟨false, some 1, true,
        ⟨5902, [(5901, ⟨"user@shimmy:5901", "1", 11⟩)]⟩,
        [⟨21, true⟩, ⟨22, false⟩]⟩).1 =
      ((exit_app ⟨false, some 1, true,
          ⟨5902, [(5901, ⟨"user@shimmy:5901", "1", 11⟩)]⟩,
          [⟨21, true⟩, ⟨22, false⟩]⟩).1, []) ∧
    (exit_app ⟨false, some 1, true,
        ⟨5902, [(5901, ⟨"user@shimmy:5901", "1", 11⟩)]⟩,
        [⟨21, true⟩, ⟨22, false⟩]⟩).2 =
      [Event.terminateSound 1] ++ [Event.killTunnel 11] ++
        [Event.terminateViewer 21] ++ [Event.sysExit 1] ∧
    (true = true → (exit_app ⟨false, some 1, true,
        ⟨5902, [(5901, ⟨"user@shimmy:5901", "1", 11⟩)]⟩,
        [⟨21, true⟩, ⟨22, false⟩]⟩).1.tun.portsInUse = []) ∧
    handle_fatal_error ⟨false, some 1, true,
        ⟨5902, [(5901, ⟨"user@shimmy:5901", "1", 11⟩)]⟩,
        [⟨21, true⟩, ⟨22, false⟩]⟩ =
      exit_app ⟨false, some 1, true,
        ⟨5902, [(5901, ⟨"user@shimmy:5901", "1", 11⟩)]⟩,
        [⟨21, true⟩, ⟨22, false⟩]⟩ :=
  exit_app_runs_once ⟨false, some 1, true,
    ⟨5902, [(5901, ⟨"user@shimmy:5901", "1", 11⟩)]⟩,
    [⟨21, true⟩, ⟨22, false⟩]⟩ rfl (by decide)

/-! Lemmas about session reuse in `start_vnc_session`. -/

theorem findPortForSession_none (tbl : List (Nat × TunnelEntry))
    (display : String) (h : findPortForSession tbl display = none) :
    ∀ kv ∈ tbl, kv.2.sessionName ≠ display := by
  rw [findPortForSession] at h
  have h2 : tbl.find? (fun kv => kv.2.sessionName == display) = none := by
    rcases hf : tbl.find? (fun kv => kv.2.sessionName == display) with _ | kv
    · exact hf
    · rw [hf] at h
      cases h
  intro kv hkv
  have := List.find?_eq_none.mp h2 kv hkv
  simpa using this

theorem dictInsert_not_mem (tbl : List (Nat × TunnelEntry)) (k : Nat)
    (v : TunnelEntry) (h : k ∉ tbl.map Prod.fst) :
    dictInsert tbl k v = tbl ++ [(k, v)] := by
  have hany : ¬ (tbl.any (fun kv => kv.1 == k) = true) := by
    intro hany
    obtain ⟨kv, hkv, hbeq⟩ := List.any_eq_true.mp hany
    exact h (List.mem_map.mpr ⟨kv, hkv, eq_of_beq hbeq⟩)
  rw [dictInsert, if_neg hany]

theorem afterTunnel_state (cfg : LaunchConfig) (st : TunState)
    (server : String) (lp : Option Nat) (evs : List Event) :
    (afterTunnel cfg st server lp evs).2.1 = st := by
  rw [afterTunnel]
  split <;> rfl

/-- C7 (confirmed): assuming the port table has at most one entry per
session name and every open tunnel's local port reports in use (the
tunnel's listener binds it), `start_vnc_session` preserves the
one-tunnel-per-session invariant; when the requested display already has
a tunnel in the table it reuses that entry's local port — the state is
unchanged, no ssh process is spawned, and any viewer launch targets the
reused port — and any entry it adds carries a local port that was not
already in the table. -/
theorem start_vnc_session_unique (env : OpenEnv) (cfg : LaunchConfig)
    (st : TunState) (sessions : List VNCSession)
    (display vncserver username : String) (procId : Nat)
    (out : StartOutcome) (st' : TunState) (evs : List Event)
    (hrun : start_vnc_session env cfg st sessions display vncserver username
        procId = (out, st', evs))
    (hU : sessionUnique st.portsInUse)
    (hBusy : ∀ kv ∈ st.portsInUse, env.inUse kv.1 = true) :
    sessionUnique st'.portsInUse ∧
    (∀ p, cfg.sshForward = true →
        findPortForSession st.portsInUse display = some p →
        st' = st ∧ evs.all (fun e => !(isSpawnEvent e)) = true ∧
        ∀ e ∈ evs, e = Event.launchViewerThread "localhost" (some p)) ∧
    (∀ kv ∈ st'.portsInUse, kv ∈ st.portsInUse ∨
        (kv.1 ∉ st.portsInUse.map Prod.fst ∧
         kv.2.sessionName = display)) := by
  rw [start_vnc_session] at hrun
  rcases hsess : sessions.find? (fun s => s.display == display) with _ | session
  · rw [hsess] at hrun
    simp only [Prod.mk.injEq] at hrun
    obtain ⟨hout, hst, hevs⟩ := hrun
    subst hst
    subst hevs
    refine ⟨hU, ?_, fun kv hkv => Or.inl hkv⟩
    intro p _ _
    exact ⟨rfl, rfl, fun e he => absurd he (List.not_mem_nil e)⟩
  · rw [hsess] at hrun
    simp only at hrun
    rcases hparse : pyIntParse session.display with _ | d
    · rw [hparse] at hrun
      simp only [Prod.mk.injEq] at hrun
      obtain ⟨hout, hst, hevs⟩ := hrun
      subst hst
      subst hevs
      refine ⟨hU, ?_, fun kv hkv => Or.inl hkv⟩
      intro p _ _
      exact ⟨rfl, rfl, fun e he => absurd he (List.not_mem_nil e)⟩
    · rw [hparse] at hrun
      simp only at hrun
      cases hfwd : cfg.sshForward with
      | false =>
        rw [if_neg (by simp [hfwd])] at hrun
        have hst' : st' = st := by
          have h2 := afterTunnel_state cfg st vncserver
            (some (remotePortOf d)) []
          rw [hrun] at h2
          exact h2
        subst hst'
        refine ⟨hU, ?_, fun kv hkv => Or.inl hkv⟩
        intro p hf _
        exact Bool.noConfusion hf
      | true =>
        rw [if_pos hfwd] at hrun
        rcases hfind : findPortForSession st.portsInUse display with _ | p0
        · rw [hfind] at hrun
          simp only at hrun
          rcases hopen : open_ssh_tunnel env st vncserver username
              (remotePortOf d) none display procId with ⟨oout, ost, oevs⟩
          rw [hopen] at hrun
          rcases open_ssh_tunnel_none_cases env st vncserver username
              (remotePortOf d) display procId oout ost oevs hopen with
            ⟨hrf, htbl, _⟩ | ⟨p, hle, hcur, hfree, hcase⟩
          · subst hrf
            simp only at hrun
            have hst'2 : st' = ost := by
              have h2 := afterTunnel_state cfg ost "localhost" none oevs
              rw [hrun] at h2
              exact h2
            subst hst'2
            refine ⟨?_, fun p2 _ hfind2 => Option.noConfusion hfind2, ?_⟩
            · rw [htbl]
              exact hU
            · intro kv hkv
              rw [htbl] at hkv
              exact Or.inl hkv
          · rcases hcase with ⟨⟨m, hm⟩, htbl⟩ | ⟨hok, htbl⟩
            · subst hm
              simp only [Prod.mk.injEq] at hrun
              obtain ⟨hout, hst, hevs⟩ := hrun
              subst hst
              refine ⟨?_, fun p2 _ hfind2 => Option.noConfusion hfind2, ?_⟩
              · rw [htbl]
                exact hU
              · intro kv hkv
                rw [htbl] at hkv
                exact Or.inl hkv
            · subst hok
              simp only at hrun
              have hst'2 : st' = ost := by
                have h2 := afterTunnel_state cfg ost "localhost" (some p) oevs
                rw [hrun] at h2
                exact h2
              subst hst'2
              have hnotin : p ∉ st.portsInUse.map Prod.fst := by
                intro hin
                obtain ⟨kv, hkv, hkv1⟩ := List.mem_map.mp hin
                have h2 := hBusy kv hkv
                rw [hkv1] at h2
                rw [h2] at hfree
                cases hfree
              rw [htbl, dictInsert_not_mem st.portsInUse p _ hnotin]
              have hnames := findPortForSession_none st.portsInUse display
                hfind
              refine ⟨?_,
                fun p2 _ hfind2 => Option.noConfusion hfind2, ?_⟩
              · unfold sessionUnique
                rw [List.pairwise_append]
                exact ⟨hU, List.pairwise_singleton _ _,
                  fun a ha b hb => by
                    rw [List.mem_singleton] at hb
                    subst hb
                    exact hnames a ha⟩
              · intro kv hkv
                rcases List.mem_append.mp hkv with hkv | hkv
                · exact Or.inl hkv
                · rw [List.mem_singleton] at hkv
                  subst hkv
                  exact Or.inr ⟨hnotin, rfl⟩
        · rw [hfind] at hrun
          simp only at hrun
          rw [afterTunnel] at hrun
          split at hrun <;> simp only [Prod.mk.injEq] at hrun <;>
            obtain ⟨hout, hst, hevs⟩ := hrun <;> subst hst <;> subst hevs
          · refine ⟨hU, ?_, fun kv hkv => Or.inl hkv⟩
            intro p hf hfind2
            injection hfind2 with hp0
            subst hp0
            exact ⟨rfl, rfl, fun e he => absurd he (List.not_mem_nil e)⟩
          · refine ⟨hU, ?_, fun kv hkv => Or.inl hkv⟩
            intro p hf hfind2
            injection hfind2 with hp0
            subst hp0
            exact ⟨rfl, rfl, fun e he => by
              simp only [List.nil_append, List.mem_singleton] at he
              exact he⟩

/-- C7 witness: `start_vnc_session_unique` at a concrete state whose
table already has a tunnel for display `1` on port 5901: the call reuses
port 5901, changes nothing, spawns nothing, and the invariant is kept. -/
theorem start_vnc_session_unique_witness :
    sessionUnique ([(5901, ⟨"user@shimmy:5901", "1", 11⟩)] :
      List (Nat × TunnelEntry)) ∧
    (∀ p, (⟨some "vncviewer", true⟩ : LaunchConfig).sshForward = true →
        findPortForSession [(5901, ⟨"user@shimmy:5901", "1", 11⟩)] "1" =
          some p →
        (⟨5902, [(5901, ⟨"user@shimmy:5901", "1", 11⟩)]⟩ : TunState) =
          ⟨5902, [(5901, ⟨"user@shimmy:5901", "1", 11⟩)]⟩ ∧
        ([Event.launchViewerThread "localhost" (some 5901)].all
          (fun e => !(isSpawnEvent e))) = true ∧
        ∀ e ∈ [Event.launchViewerThread "localhost" (some 5901)],
          e = Event.launchViewerThread "localhost" (some p)) ∧
    (∀ kv ∈ ([(5901, ⟨"user@shimmy:5901", "1", 11⟩)] :
        List (Nat × TunnelEntry)),
        kv ∈ ([(5901, ⟨"user@shimmy:5901", "1", 11⟩)] :
          List (Nat × TunnelEntry)) ∨
        (kv.1 ∉ ([(5901, (⟨"user@shimmy:5901", "1", 11⟩ : TunnelEntry))].map
            Prod.fst) ∧
         kv.2.sessionName = "1")) :=
  start_vnc_session_unique
    ⟨fun p => p == 5901, false, fun _ _ => true⟩
    ⟨some "vncviewer", true⟩
    ⟨5902, [(5901, ⟨"user@shimmy:5901", "1", 11⟩)]⟩
    [⟨"1 - Kast blue", "1", "Kast blue", "user"⟩]
    "1" "shimmy.ucolick.org" "user" 7
    (StartOutcome.launched (some 5901))
    ⟨5902, [(5901, ⟨"user@shimmy:5901", "1", 11⟩)]⟩
    [Event.launchViewerThread "localhost" (some 5901)]
    (by decide) (by unfold sessionUnique; decide) (by decide)

/-- C8 (code bug, evaluated): with every probed candidate port reported
in use, `open_ssh_tunnel` returns the Python value `False` instead of
raising; `start_vnc_session`'s `except` clause therefore never fires, the
session is NOT skipped, and a viewer-launch thread is started against the
`False` port value (rendered as port 0 by the `{port:4d}` format); the
cursor is reset to 5901 and nothing is registered.  The failure still
does not unwind past the caller. -/
theorem start_vnc_session_no_free_port_bug :
    start_vnc_session ⟨fun _ => true, false, fun _ _ => true⟩
        ⟨some "vncviewer", true⟩ ⟨5901, []⟩
        [⟨"1 - Kast blue", "1", "Kast blue", "user"⟩] "1"
        "shimmy.ucolick.org" "user" 7 =
      (StartOutcome.launched none, ⟨5901, []⟩,
       [Event.launchViewerThread "localhost" none]) ∧
    (open_ssh_tunnel ⟨fun _ => true, false, fun _ _ => true⟩ ⟨5901, []⟩
        "shimmy.ucolick.org" "user" 5901 none "1" 7).1 =
      OpenOutcome.returnedFalse ∧
    launch_vncviewer_address "vncviewer" "" "localhost" 0 =
      "localhost::   0" := by decide

/-- C6 witness: `close_ssh_thread_idem` at a concrete one-tunnel table
and port 5901. -/
theorem close_ssh_thread_idem_witness :
    close_ssh_thread (close_ssh_thread ⟨5902,
        [(5901, ⟨"user@shimmy:5901", "1", 11⟩)]⟩ 5901).1 5901 =
      ((close_ssh_thread ⟨5902,
          [(5901, ⟨"user@shimmy:5901", "1", 11⟩)]⟩ 5901).1, []) ∧
    findTunnel (close_ssh_thread ⟨5902,
        [(5901, ⟨"user@shimmy:5901", "1", 11⟩)]⟩ 5901).1.portsInUse 5901 =
      none ∧
    (findTunnel [(5901, (⟨"user@shimmy:5901", "1", 11⟩ : TunnelEntry))]
          5901 = none →
        close_ssh_thread ⟨5902,
            [(5901, ⟨"user@shimmy:5901", "1", 11⟩)]⟩ 5901 =
          (⟨5902, [(5901, ⟨"user@shimmy:5901", "1", 11⟩)]⟩, [])) ∧
    (∀ kv, findTunnel [(5901, (⟨"user@shimmy:5901", "1", 11⟩ : TunnelEntry))]
          5901 = some kv →
        (close_ssh_thread ⟨5902,
            [(5901, ⟨"user@shimmy:5901", "1", 11⟩)]⟩ 5901).2 =
          [Event.killTunnel kv.2.procId] ∧
        (close_ssh_thread ⟨5902,
            [(5901, ⟨"user@shimmy:5901", "1", 11⟩)]⟩ 5901).1.portsInUse =
          [(5901, (⟨"user@shimmy:5901", "1", 11⟩ : TunnelEntry))].filter
            (fun kv2 => kv2.1 != 5901)) :=
  close_ssh_thread_idem ⟨5902, [(5901, ⟨"user@shimmy:5901", "1", 11⟩)]⟩ 5901

end LickVnc
